import Mathlib

/-!
Shallow embedding of `proxy_target_resolver.py` (reverse-proxy target
resolution engine) and verification of its specification claims.

Python strings are modelled as Lean `String`; the Python string methods
used by the source (`split`, `strip`, `startswith`, slicing, `in`) are
re-implemented below on the character list so that every definition is
executable and kernel-reducible.  Python exceptions are modelled with
`Except PyErr`; external command invocations (`subprocess.run`) are
modelled as oracle parameters supplying the command's outcome.
-/

namespace ProxyResolve

/-- Python exception kinds relevant to the embedded code. -/
inductive PyErr
  | valueError
  | typeError
  | indexError
  | osError
deriving DecidableEq

/-- Text used when a Python exception is interpolated into an f-string. -/
def pyErrStr : PyErr → String
  | .valueError => "ValueError"
  | .typeError => "TypeError"
  | .indexError => "IndexError"
  | .osError => "OSError"

/-- Python `str.split(sep)` on a character list for a one-character
separator: always returns at least one (possibly empty) piece. -/
def splitChList (c : Char) : List Char → List (List Char)
  | [] => [[]]
  | x :: xs =>
    match splitChList c xs with
    | [] => [[]]
    | h :: t => if x == c then [] :: h :: t else (x :: h) :: t

/-- Python `s.split(c)` for a single-character separator `c`. -/
def pySplitCh (c : Char) (s : String) : List String :=
  (splitChList c s.data).map String.mk

/-- Characters treated as whitespace by Python `str.split()`/`str.strip()`. -/
def pySpace (c : Char) : Bool :=
  c == ' ' || c == '\t' || c == '\n' || c == '\r' || c == Char.ofNat 11 || c == Char.ofNat 12

/-- Splitting on a character predicate (pieces between matching characters). -/
def splitPredList (p : Char → Bool) : List Char → List (List Char)
  | [] => [[]]
  | x :: xs =>
    match splitPredList p xs with
    | [] => [[]]
    | h :: t => if p x then [] :: h :: t else (x :: h) :: t

/-- Python `s.split()` with no argument: split on whitespace runs and drop
empty pieces. -/
def pySplitWs (s : String) : List String :=
  ((splitPredList pySpace s.data).filter (fun l => !l.isEmpty)).map String.mk

/-- Python `s.strip()`: remove leading and trailing whitespace. -/
def pyStrip (s : String) : String :=
  String.mk (((s.data.dropWhile pySpace).reverse.dropWhile pySpace).reverse)

/-- Python `s.strip('"')`: remove leading and trailing double-quote
characters. -/
def pyStripQuotes (s : String) : String :=
  String.mk (((s.data.dropWhile (· == '"')).reverse.dropWhile (· == '"')).reverse)

/-- Python `s.startswith(pre)`. -/
def pyStartsWith (pre s : String) : Bool :=
  pre.data.isPrefixOf s.data

/-- Python `s[n:]` for a nonnegative `n` (character slicing). -/
def pyDrop (n : Nat) (s : String) : String :=
  String.mk (s.data.drop n)

/-- Python `s[:n]` for a nonnegative `n` (character slicing). -/
def pyTake (n : Nat) (s : String) : String :=
  String.mk (s.data.take n)

/-- Python `len(s)` for a string. -/
def pyLen (s : String) : Nat :=
  s.data.length

/-- Python `c in s` for a single character `c`. -/
def strHasCh (c : Char) (s : String) : Bool :=
  s.data.any (· == c)

/-- Substring test on character lists (Python `sub in s` for strings). -/
def listSub (sub : List Char) : List Char → Bool
  | [] => sub.isEmpty
  | c :: t => sub.isPrefixOf (c :: t) || listSub sub t

/-- Python `sub in s` for strings. -/
def strHasSub (sub s : String) : Bool :=
  listSub sub.data s.data

/-- Python truthiness of a string: nonempty is truthy. -/
def truthyStr (s : String) : Bool :=
  !s.data.isEmpty

/-- Python truthiness of an optional string (`None` is falsy). -/
def truthyOpt : Option String → Bool
  | none => false
  | some s => truthyStr s

/-!
Leaf functions of the source: the address classifier `proxypass_target`,
the usage probes `check_port_usage` / `check_unix_socket_usage`, and the
service identifier `get_systemctl_service` with its parser.
-/

/-- Scanning loop of `proxypass_target` over the whitespace-split parts of
a line: the first part containing `|` is split at `|` into a quote-stripped
(primary, backup) pair (pieces past the second are discarded); otherwise
the first part starting with `"http` or `"unix:` becomes the quote-stripped
primary with no backup; otherwise the scan continues, ending in
`(none, none)`. -/
def proxypassScan : List String → Option String × Option String
  | [] => (none, none)
  | part :: rest =>
    if strHasCh '|' part then
      (some (pyStripQuotes ((pySplitCh '|' part).getD 0 "")),
       some (pyStripQuotes ((pySplitCh '|' part).getD 1 "")))
    else if pyStartsWith "\"http" part then (some (pyStripQuotes part), none)
    else if pyStartsWith "\"unix:" part then (some (pyStripQuotes part), none)
    else proxypassScan rest

/-- The address classifier `proxypass_target(line)` of the source: split
the line on whitespace and scan the parts. -/
def proxypass_target (line : String) : Option String × Option String :=
  proxypassScan (pySplitWs line)

/-- Raw usage entries as the engine sees them: either a plain string (what
the probe commands actually produce, one pid per line) or a dict, of which
only the presence and value of the `name` key matters to the engine. -/
inductive UsageEntry
  | pstr (s : String)
  | pdict (nm : Option String)
deriving DecidableEq

/-- The `usage_info` value stored per target: a Python list of entries, or
a non-list value (the error string produced by `check_port_usage`). -/
inductive UsageInfo
  | list (es : List UsageEntry)
  | other (s : String)
deriving DecidableEq

/-- Outcome of `check_port_usage(host, port)` as a function of the
`subprocess.run` outcome `out` (`.ok stdout` when the command ran,
`.error e` when it raised): on success the stripped stdout is split on
newlines into pid strings; on an exception an error string is returned
instead of a list. -/
def check_port_usage (host port : String) (out : Except PyErr String) : UsageInfo :=
  match out with
  | .ok stdout => .list ((pySplitCh '\n' (pyStrip stdout)).map .pstr)
  | .error e =>
    .other ("Error checking port " ++ port ++ " on " ++ host ++ ": " ++ pyErrStr e)

/-- Outcome of `check_unix_socket_usage(socket_path)` as a function of the
`subprocess.run` outcome: on success the stripped stdout is split on
newlines into pid strings; on an exception the error is logged and an
empty Python list is returned. -/
def check_unix_socket_usage (socket_path : String) (out : Except PyErr String) : UsageInfo :=
  match out with
  | .ok stdout => .list ((pySplitCh '\n' (pyStrip stdout)).map .pstr)
  | .error _ => .list []

/-- The error string `get_systemctl_service` returns when any exception is
caught (Python `f"Error finding service: {e}"`). -/
def svcErrorMsg (e : PyErr) : String :=
  "Error finding service: " ++ pyErrStr e

/-- The parser `parse_systemctl_service_status(status)` of the source:
`lines[0].split(" ")[1]` is the service name (raising `IndexError` when
the first line has fewer than two space-separated pieces), and the status
is `lines[2].split(":")[1].strip()` when there are more than two lines and
the third contains a colon, else `"unknown"`. -/
def parse_systemctl_service_status (status : String) : Except PyErr (String × String) :=
  let lines := pySplitCh '\n' status
  let toks := pySplitCh ' ' (lines.getD 0 "")
  if 2 ≤ toks.length then
    .ok (toks.getD 1 "",
      if 2 < lines.length ∧ strHasCh ':' (lines.getD 2 "") then
        pyStrip ((pySplitCh ':' (lines.getD 2 "")).getD 1 "")
      else "unknown")
  else .error .indexError

/-- `get_systemctl_service(pid)` as a function of the `systemctl status`
invocation outcome `out`: the stripped stdout is parsed and the service
name returned; any exception (of the command or of the parser) is caught
and turned into the `svcErrorMsg` string, never propagated. -/
def get_systemctl_service (out : Except PyErr String) : String :=
  match out with
  | .error e => svcErrorMsg e
  | .ok stdout =>
    match parse_systemctl_service_status (pyStrip stdout) with
    | .ok r => r.1
    | .error e => svcErrorMsg e

/-!
The resolution engine `resolve_targets`.

The frontier set `targets` holds, in the source, the tuples produced by
the configuration readers together with the plain address strings the
discovery step adds (`targets.add(f"127.0.0.1:{port}")`), so a frontier
entry is either a `(primary, failover)` pair or a bare string.  Popping an
entry executes `primary, failover = target`, which on a string succeeds
only when the string has exactly two characters (unpacking it into its two
one-character substrings) and otherwise raises `ValueError`.

The Python `set` frontier has unspecified pop order; the embedding fixes
the order (pop at the head, enqueue at the tail) as one admissible
determinization.  `subprocess` invocations are oracle parameters:
`probe k a` is the `usage_info` value obtained by the `k`-th probe of the
run when aimed at address `a`, and `svcOut pid` is the outcome of the
`systemctl status {pid}` command.  The state additionally records, as pure
instrumentation, the list `svcTrace` of pids for which
`get_systemctl_service` was invoked, in invocation order.
-/

/-- A frontier entry: a `(primary, failover)` tuple from the configuration
readers, or a bare address string added by the discovery step. -/
inductive PyTarget
  | pair (p : String) (b : Option String)
  | str (s : String)
deriving DecidableEq

/-- Normalized address given to a usage probe. -/
inductive ProbeAddr
  | tcp (host port : String)
  | unixSock (path : String)
deriving DecidableEq

/-- A per-target entry of the result map `details`. -/
structure ResolutionRecord where
  usage_info : UsageInfo
  systemctl_service : List String
deriving DecidableEq

/-- State of one `resolve_targets` run. -/
structure RState where
  frontier : List PyTarget
  visited : List String
  details : List (String × ResolutionRecord)
  processed_pids : List String
  svcTrace : List String
  probeCount : Nat
deriving DecidableEq

/-- Python `set.add`: append the element when it is not already a member. -/
def setAdd (s : List String) (x : String) : List String :=
  if x ∈ s then s else s ++ [x]

/-- Python dict assignment `d[k] = v`: replace the entry of `k` in place,
or append a new binding. -/
def dictSet (d : List (String × ResolutionRecord)) (k : String) (v : ResolutionRecord) :
    List (String × ResolutionRecord) :=
  match d with
  | [] => [(k, v)]
  | (k', v') :: rest => if k' = k then (k, v) :: rest else (k', v') :: dictSet rest k v

/-- Python dict lookup `d[k]` (as an option). -/
def dictGet (d : List (String × ResolutionRecord)) (k : String) : Option ResolutionRecord :=
  match d with
  | [] => none
  | (k', v') :: rest => if k' = k then some v' else dictGet rest k

/-- The unpacking `primary, failover = target` at the top of the loop:
a tuple unpacks to its components; a string unpacks into its two
one-character substrings when its length is exactly 2 and otherwise
raises `ValueError`. -/
def unpackTarget : PyTarget → Except PyErr (String × Option String)
  | .pair p b => .ok (p, b)
  | .str s =>
    if s.data.length = 2 then .ok (pyTake 1 s, some (pyDrop 1 s))
    else .error .valueError

/-- The binding `host, port = target.split(":") if ":" in target else
(target, "80")`: with no colon the port defaults to `"80"`; with a colon
the split must have exactly two pieces or the unpacking raises
`ValueError`. -/
def splitHostPort (t : String) : Except PyErr (String × String) :=
  if strHasCh ':' t then
    match pySplitCh ':' t with
    | [h, p] => .ok (h, p)
    | _ => .error .valueError
  else .ok (t, "80")

/-- Probe dispatch of one iteration: a `unix:` target is probed as a UNIX
socket (its details key stays the full `unix:`-prefixed string); otherwise
an `http://` prefix is stripped, the remainder is split into host and
port, and the TCP endpoint is probed (the details key is the stripped
string).  Returns the details key together with the probe's
`usage_info`. -/
def probeStage (probe : Nat → ProbeAddr → UsageInfo) (pc : Nat) (target : String) :
    Except PyErr (String × UsageInfo) :=
  if pyStartsWith "unix:" target then
    .ok (target, probe pc (.unixSock (pyDrop 5 target)))
  else
    let t1 := if pyStartsWith "http://" target then pyDrop 7 target else target
    match splitHostPort t1 with
    | .error e => .error e
    | .ok hp => .ok (t1, probe pc (.tcp hp.1 hp.2))

/-- The service-identification loop over the usage entries: a truthy
string pid not yet in `processed_pids` triggers `get_systemctl_service`
and is added to `processed_pids` (and to the instrumentation trace)
whether or not the lookup parsed; dict entries fail the `isinstance(pid,
str)` test and are skipped.  Accumulates the per-target service-name set,
the pid cache and the trace. -/
def svcFold (svcOut : String → Except PyErr String) :
    List UsageEntry → List String → List String → List String →
    List String × List String × List String
  | [], svcs, pids, tr => (svcs, pids, tr)
  | .pstr s :: rest, svcs, pids, tr =>
    if s ≠ "" ∧ s ∉ pids then
      svcFold svcOut rest (setAdd svcs (get_systemctl_service (svcOut s))) (pids ++ [s]) (tr ++ [s])
    else svcFold svcOut rest svcs pids tr
  | .pdict _ :: rest, svcs, pids, tr => svcFold svcOut rest svcs pids tr

/-- Dispatch of the service loop on the shape of `usage_info`: a non-list
value is logged and yields no service names and no cache growth. -/
def uiSvcs (svcOut : String → Except PyErr String) (ui : UsageInfo)
    (pids tr : List String) : List String × List String × List String :=
  match ui with
  | .list es => svcFold svcOut es [] pids tr
  | .other _ => ([], pids, tr)

/-- The comprehension
`[entry['name'].split(":")[1] for entry in usage_info if 'name' in entry
and entry['name'].startswith("127.0.0.1:")]`: for a string entry,
`'name' in entry` is a substring test and a hit makes `entry['name']`
raise `TypeError`; for a dict entry, the `name` value is used when it
starts with `127.0.0.1:`. -/
def newPorts : List UsageEntry → Except PyErr (List String)
  | [] => .ok []
  | .pstr s :: rest =>
    if strHasSub "name" s then .error .typeError else newPorts rest
  | .pdict none :: rest => newPorts rest
  | .pdict (some nm) :: rest =>
    if pyStartsWith "127.0.0.1:" nm then
      match newPorts rest with
      | .error e => .error e
      | .ok r => .ok (((pySplitCh ':' nm).getD 1 "") :: r)
    else newPorts rest

/-- The comprehension `[entry['name'][5:] for entry in usage_info if
'name' in entry and entry['name'].startswith("unix:")]`, with the same
`TypeError` behaviour on string entries. -/
def newSockets : List UsageEntry → Except PyErr (List String)
  | [] => .ok []
  | .pstr s :: rest =>
    if strHasSub "name" s then .error .typeError else newSockets rest
  | .pdict none :: rest => newSockets rest
  | .pdict (some nm) :: rest =>
    if pyStartsWith "unix:" nm then
      match newSockets rest with
      | .error e => .error e
      | .ok r => .ok (pyDrop 5 nm :: r)
    else newSockets rest

/-- Enqueue one discovered address: skipped when already visited, and a
set-membership no-op when already on the frontier. -/
def enqOne (visited : List String) (fr : List PyTarget) (nt : String) : List PyTarget :=
  if nt ∈ visited then fr
  else if PyTarget.str nt ∈ fr then fr
  else fr ++ [PyTarget.str nt]

/-- Enqueue each value of a discovery comprehension, prefixed back into
address form (`127.0.0.1:{port}` respectively `unix:{socket}`). -/
def enqNew (visited : List String) (fr : List PyTarget) (pre : String) :
    List String → List PyTarget
  | [] => fr
  | v :: vs => enqNew visited (enqOne visited fr (pre ++ v)) pre vs

/-- The discovery step of one iteration: only a list-shaped `usage_info`
is scanned; the loop-back TCP comprehension runs and enqueues first, then
the UNIX-socket comprehension. -/
def discStage (visited : List String) (fr : List PyTarget) (ui : UsageInfo) :
    Except PyErr (List PyTarget) :=
  match ui with
  | .other _ => .ok fr
  | .list es =>
    match newPorts es with
    | .error e => .error e
    | .ok ps =>
      match newSockets es with
      | .error e => .error e
      | .ok ss => .ok (enqNew visited (enqNew visited fr "127.0.0.1:" ps) "unix:" ss)

/-- One iteration of the `while targets:` loop body on the popped entry
`t` (the state's frontier already has `t` removed): unpack, mark the
primary visited (twice when a truthy failover is present, with the same
effect), probe, run the service loop, store the details record under the
canonical key (overwriting any previous record), and enqueue the
discovered downstream targets. -/
def stepEntry (svcOut : String → Except PyErr String)
    (probe : Nat → ProbeAddr → UsageInfo) (st : RState) (t : PyTarget) :
    Except PyErr RState :=
  match unpackTarget t with
  | .error e => .error e
  | .ok pf =>
    let primary := pf.1
    let visited1 :=
      if truthyStr primary && truthyOpt pf.2 then setAdd st.visited primary else st.visited
    let visited2 := setAdd visited1 primary
    match probeStage probe st.probeCount primary with
    | .error e => .error e
    | .ok kui =>
      let sres := uiSvcs svcOut kui.2 st.processed_pids st.svcTrace
      match discStage visited2 st.frontier kui.2 with
      | .error e => .error e
      | .ok fr' =>
        .ok ⟨fr', visited2, dictSet st.details kui.1 ⟨kui.2, sres.1⟩,
             sres.2.1, sres.2.2, st.probeCount + 1⟩

/-- The `while targets:` loop, indexed by a step bound (fuel): `none`
means the bound was reached, which `resolveLoop_halts` shows never happens
for the bound used by `resolve_targets`. -/
def resolveLoop (svcOut : String → Except PyErr String)
    (probe : Nat → ProbeAddr → UsageInfo) :
    Nat → RState → Option (Except PyErr RState)
  | 0, _ => none
  | fuel + 1, st =>
    match st.frontier with
    | [] => some (.ok st)
    | t :: rest =>
      match stepEntry svcOut probe { st with frontier := rest } t with
      | .error e => some (.error e)
      | .ok st' => resolveLoop svcOut probe fuel st'

/-- An entry whose unpacking can succeed: a tuple, or a two-character
string. -/
def processable : PyTarget → Bool
  | .pair _ _ => true
  | .str s => s.data.length == 2

/-- Number of processable entries on a frontier; this bounds the number of
loop iterations that do not end the run. -/
def pCount (fr : List PyTarget) : Nat :=
  (fr.filter processable).length

/-- Initial state of a run on the input target set. -/
def initState (ts : List PyTarget) : RState :=
  ⟨ts, [], [], [], [], 0⟩

/-- `resolve_targets(targets)` of the source: drain the frontier.  The step
bound `pCount ts + 1` always suffices (`resolve_targets_halts`), so the
result is `some (.ok finalState)` when the loop drains the frontier and
`some (.error e)` when an iteration raises exception `e`. -/
def resolve_targets (svcOut : String → Except PyErr String)
    (probe : Nat → ProbeAddr → UsageInfo) (ts : List PyTarget) :
    Option (Except PyErr RState) :=
  resolveLoop svcOut probe (pCount ts + 1) (initState ts)

/-!
Additional definitions used by the verification: a predicate on probe
results, the backup-erasure map, and the concrete oracles and states at
which the claim theorems are instantiated.
-/

/-- A probe result that triggers neither a discovery nor a discovery-scan
exception: a non-list value, or a list of pid strings not containing the
substring `name`. -/
def harmless : UsageInfo → Bool
  | .list es => es.all fun e => match e with | .pstr s => !strHasSub "name" s | .pdict _ => false
  | .other _ => true

/-- Drop the failover component of a frontier entry (discovered bare
strings have none to drop). -/
def eraseBackup : PyTarget → PyTarget
  | .pair p _ => .pair p none
  | .str s => .str s

/-- Apply `eraseBackup` across a state's frontier. -/
def mapEB (st : RState) : RState :=
  ⟨st.frontier.map eraseBackup, st.visited, st.details, st.processed_pids,
   st.svcTrace, st.probeCount⟩

deriving instance DecidableEq for Except

/-- Oracle returning empty command output for every service query. -/
def svcOkEmpty : String → Except PyErr String := fun _ => .ok ""

/-- Probe oracle realizing a cyclic discovery chain: the probe of
`127.0.0.1:8080` reports a process bound to `127.0.0.1:8081` and
conversely. -/
def probeCycle : Nat → ProbeAddr → UsageInfo
  | _, .tcp "127.0.0.1" "8080" => .list [.pdict (some "127.0.0.1:8081")]
  | _, .tcp "127.0.0.1" "8081" => .list [.pdict (some "127.0.0.1:8080")]
  | _, _ => .list []

/-- Probe oracle realizing a one-hop discovery chain: the probe of
`127.0.0.1:8080` reports a process bound to `127.0.0.1:8081`, which has
no further bindings. -/
def probeChain : Nat → ProbeAddr → UsageInfo
  | _, .tcp "127.0.0.1" "8080" => .list [.pdict (some "127.0.0.1:8081")]
  | _, _ => .list []

/-- Concrete service oracle for the C4 witness. -/
def svcW4 : String → Except PyErr String := fun _ => .ok ""

/-- Concrete probe oracle for the C4 witness. -/
def probeW4 : Nat → ProbeAddr → UsageInfo := fun _ _ => .list []

/-- Concrete service oracle for the C5 witness. -/
def svcW5 : String → Except PyErr String := fun _ => .ok ""

/-- Concrete probe oracle for the C5 witness: the two probe calls of the
run return distinguishable snapshots. -/
def probeW5 : Nat → ProbeAddr → UsageInfo :=
  fun k _ => .other (if k = 0 then "probe0" else "probe1")

/-- Concrete service oracle for the C6 witness. -/
def svcW6 : String → Except PyErr String := fun _ => .ok "a b"

/-- Concrete probe oracle for the C6 witness: the same pid is reported
twice. -/
def probeW6 : Nat → ProbeAddr → UsageInfo := fun _ _ => .list [.pstr "42", .pstr "42"]

/-- Final state of the C6 witness run. -/
def stW6 : RState :=
  ⟨[], ["unix:s"], [("unix:s", ⟨.list [.pstr "42", .pstr "42"], ["b"]⟩)], ["42"], ["42"], 1⟩

/-- Concrete service oracle for the C7 witness. -/
def svcW7 : String → Except PyErr String := fun _ => .ok ""

/-- Concrete probe oracle for the C7 witness: the first probe fails with
the TCP error marker, the second returns one pid. -/
def probeW7 : Nat → ProbeAddr → UsageInfo
  | 0, _ => .other "Error checking port 80 on h: OSError"
  | _, _ => .list [.pstr "7"]

/-!
Supporting lemmas.
-/

theorem mem_setAdd_self (s : List String) (x : String) : x ∈ setAdd s x := by
  unfold setAdd; split
  · assumption
  · simp

theorem setAdd_of_mem {s : List String} {x : String} (h : x ∈ s) : setAdd s x = s := by
  simp [setAdd, h]

theorem setAdd_setAdd_self (s : List String) (x : String) :
    setAdd (setAdd s x) x = setAdd s x :=
  setAdd_of_mem (mem_setAdd_self s x)

theorem data_append (a b : String) : (a ++ b).data = a.data ++ b.data := rfl

theorem newPorts_harmless {es : List UsageEntry}
    (h : (es.all fun e => match e with | .pstr s => !strHasSub "name" s | .pdict _ => false) = true) :
    newPorts es = .ok [] := by
  induction es with
  | nil => rfl
  | cons e rest ih =>
    simp only [List.all_cons, Bool.and_eq_true] at h
    cases e with
    | pstr s => simp [newPorts, show strHasSub "name" s = false by simpa using h.1, ih h.2]
    | pdict nm => exact absurd h.1 (by simp)

theorem newSockets_harmless {es : List UsageEntry}
    (h : (es.all fun e => match e with | .pstr s => !strHasSub "name" s | .pdict _ => false) = true) :
    newSockets es = .ok [] := by
  induction es with
  | nil => rfl
  | cons e rest ih =>
    simp only [List.all_cons, Bool.and_eq_true] at h
    cases e with
    | pstr s => simp [newSockets, show strHasSub "name" s = false by simpa using h.1, ih h.2]
    | pdict nm => exact absurd h.1 (by simp)

theorem discStage_harmless {ui : UsageInfo} (h : harmless ui = true)
    (visited : List String) (fr : List PyTarget) :
    discStage visited fr ui = .ok fr := by
  cases ui with
  | other s => rfl
  | list es =>
    unfold harmless at h
    simp [discStage, newPorts_harmless h, newSockets_harmless h, enqNew]

theorem stepEntry_pair_unix (svcOut : String → Except PyErr String)
    (probe : Nat → ProbeAddr → UsageInfo) (st : RState) (p : String) (b : Option String)
    (hp : pyStartsWith "unix:" p = true)
    (hh : harmless (probe st.probeCount (.unixSock (pyDrop 5 p))) = true) :
    stepEntry svcOut probe st (.pair p b) = .ok
      ⟨st.frontier, setAdd st.visited p,
       dictSet st.details p ⟨probe st.probeCount (.unixSock (pyDrop 5 p)),
         (uiSvcs svcOut (probe st.probeCount (.unixSock (pyDrop 5 p))) st.processed_pids st.svcTrace).1⟩,
       (uiSvcs svcOut (probe st.probeCount (.unixSock (pyDrop 5 p))) st.processed_pids st.svcTrace).2.1,
       (uiSvcs svcOut (probe st.probeCount (.unixSock (pyDrop 5 p))) st.processed_pids st.svcTrace).2.2,
       st.probeCount + 1⟩ := by
  have hv : setAdd (if truthyStr p && truthyOpt b then setAdd st.visited p else st.visited) p
      = setAdd st.visited p := by
    split
    · exact setAdd_setAdd_self st.visited p
    · rfl
  simp only [stepEntry, unpackTarget, probeStage, hp, if_true, hv,
    discStage_harmless hh]

theorem resolveLoop_nil (svcOut : String → Except PyErr String)
    (probe : Nat → ProbeAddr → UsageInfo) (fuel : Nat) (st : RState)
    (h : st.frontier = []) :
    resolveLoop svcOut probe (fuel + 1) st = some (.ok st) := by
  rw [resolveLoop, h]

theorem resolveLoop_cons (svcOut : String → Except PyErr String)
    (probe : Nat → ProbeAddr → UsageInfo) (fuel : Nat) (st : RState)
    (t : PyTarget) (rest : List PyTarget) (h : st.frontier = t :: rest) :
    resolveLoop svcOut probe (fuel + 1) st =
      match stepEntry svcOut probe { st with frontier := rest } t with
      | .error e => some (.error e)
      | .ok st' => resolveLoop svcOut probe fuel st' := by
  rw [resolveLoop, h]

/-- Full symbolic run over two tuple entries with `unix:`-prefixed
primaries and harmless probe results: both entries are processed in order,
the second probe (call index 1) happening after the first, and the run
completes normally. -/
theorem run_two_unix (svcOut : String → Except PyErr String)
    (probe : Nat → ProbeAddr → UsageInfo) (p1 p2 : String) (b1 b2 : Option String)
    (hp1 : pyStartsWith "unix:" p1 = true) (hp2 : pyStartsWith "unix:" p2 = true)
    (hh0 : harmless (probe 0 (.unixSock (pyDrop 5 p1))) = true)
    (hh1 : harmless (probe 1 (.unixSock (pyDrop 5 p2))) = true) :
    resolve_targets svcOut probe [.pair p1 b1, .pair p2 b2] = some (.ok
      ⟨[], setAdd (setAdd [] p1) p2,
       dictSet (dictSet [] p1
           ⟨probe 0 (.unixSock (pyDrop 5 p1)),
            (uiSvcs svcOut (probe 0 (.unixSock (pyDrop 5 p1))) [] []).1⟩) p2
         ⟨probe 1 (.unixSock (pyDrop 5 p2)),
          (uiSvcs svcOut (probe 1 (.unixSock (pyDrop 5 p2)))
            (uiSvcs svcOut (probe 0 (.unixSock (pyDrop 5 p1))) [] []).2.1
            (uiSvcs svcOut (probe 0 (.unixSock (pyDrop 5 p1))) [] []).2.2).1⟩,
       (uiSvcs svcOut (probe 1 (.unixSock (pyDrop 5 p2)))
          (uiSvcs svcOut (probe 0 (.unixSock (pyDrop 5 p1))) [] []).2.1
          (uiSvcs svcOut (probe 0 (.unixSock (pyDrop 5 p1))) [] []).2.2).2.1,
       (uiSvcs svcOut (probe 1 (.unixSock (pyDrop 5 p2)))
          (uiSvcs svcOut (probe 0 (.unixSock (pyDrop 5 p1))) [] []).2.1
          (uiSvcs svcOut (probe 0 (.unixSock (pyDrop 5 p1))) [] []).2.2).2.2,
       2⟩) := by
  have h1 := stepEntry_pair_unix svcOut probe ⟨[.pair p2 b2], [], [], [], [], 0⟩ p1 b1 hp1 hh0
  have h2 := stepEntry_pair_unix svcOut probe
    ⟨[], setAdd [] p1,
     dictSet [] p1 ⟨probe 0 (.unixSock (pyDrop 5 p1)),
       (uiSvcs svcOut (probe 0 (.unixSock (pyDrop 5 p1))) [] []).1⟩,
     (uiSvcs svcOut (probe 0 (.unixSock (pyDrop 5 p1))) [] []).2.1,
     (uiSvcs svcOut (probe 0 (.unixSock (pyDrop 5 p1))) [] []).2.2, 1⟩ p2 b2 hp2 hh1
  show resolveLoop svcOut probe (2 + 1) ⟨[.pair p1 b1, .pair p2 b2], [], [], [], [], 0⟩ = _
  rw [resolveLoop_cons svcOut probe 2 _ (.pair p1 b1) [.pair p2 b2] rfl]
  dsimp only
  rw [h1]
  dsimp only
  rw [resolveLoop_cons svcOut probe 1 _ (.pair p2 b2) [] rfl]
  dsimp only
  rw [h2]
  dsimp only
  rw [resolveLoop_nil svcOut probe 0 _ rfl]

theorem nodup_snoc {l : List String} {a : String} (ha : a ∉ l) (hl : l.Nodup) :
    (l ++ [a]).Nodup := by
  rw [List.nodup_append]
  refine ⟨hl, List.nodup_singleton a, ?_⟩
  intro x hx hx1
  simp only [List.mem_singleton] at hx1
  exact ha (hx1 ▸ hx)

theorem svcFold_pids_trace (svcOut : String → Except PyErr String) :
    ∀ (es : List UsageEntry) (svcs tr : List String),
      (svcFold svcOut es svcs tr tr).2.1 = (svcFold svcOut es svcs tr tr).2.2 ∧
      (tr.Nodup → (svcFold svcOut es svcs tr tr).2.2.Nodup) := by
  intro es
  induction es with
  | nil => exact fun svcs tr => ⟨rfl, id⟩
  | cons e rest ih =>
    intro svcs tr
    cases e with
    | pstr s =>
      by_cases h : s ≠ "" ∧ s ∉ tr
      · simp only [svcFold, if_pos h]
        refine ⟨(ih _ (tr ++ [s])).1, fun hn => (ih _ (tr ++ [s])).2 (nodup_snoc h.2 hn)⟩
      · simp only [svcFold, if_neg h]
        exact ih svcs tr
    | pdict nm => exact ih svcs tr

theorem uiSvcs_pids_trace (svcOut : String → Except PyErr String) (ui : UsageInfo)
    (tr : List String) :
    (uiSvcs svcOut ui tr tr).2.1 = (uiSvcs svcOut ui tr tr).2.2 ∧
    (tr.Nodup → (uiSvcs svcOut ui tr tr).2.2.Nodup) := by
  cases ui with
  | list es => exact svcFold_pids_trace svcOut es [] tr
  | other s => exact ⟨rfl, id⟩

theorem stepEntry_pids_trace {svcOut : String → Except PyErr String}
    {probe : Nat → ProbeAddr → UsageInfo} {st : RState} {t : PyTarget} {st' : RState}
    (h : stepEntry svcOut probe st t = .ok st') :
    ∃ ui, st'.processed_pids = (uiSvcs svcOut ui st.processed_pids st.svcTrace).2.1 ∧
          st'.svcTrace = (uiSvcs svcOut ui st.processed_pids st.svcTrace).2.2 := by
  unfold stepEntry at h
  split at h
  · exact absurd h (by simp)
  · dsimp only at h
    split at h
    · exact absurd h (by simp)
    · split at h
      · exact absurd h (by simp)
      · injection h with h
        subst h
        exact ⟨_, rfl, rfl⟩

theorem resolveLoop_pids_trace (svcOut : String → Except PyErr String)
    (probe : Nat → ProbeAddr → UsageInfo) :
    ∀ (fuel : Nat) (st st₂ : RState), st.processed_pids = st.svcTrace →
      st.svcTrace.Nodup → resolveLoop svcOut probe fuel st = some (.ok st₂) →
      st₂.processed_pids = st₂.svcTrace ∧ st₂.svcTrace.Nodup := by
  intro fuel
  induction fuel with
  | zero => intro st st₂ _ _ h; simp [resolveLoop] at h
  | succ f ih =>
    intro st st₂ h1 h2 h
    rw [resolveLoop] at h
    cases hfr : st.frontier with
    | nil =>
      rw [hfr] at h
      simp only [Option.some.injEq, Except.ok.injEq] at h
      subst h; exact ⟨h1, h2⟩
    | cons t rest =>
      rw [hfr] at h
      dsimp only at h
      cases hs : stepEntry svcOut probe { st with frontier := rest } t with
      | error e => rw [hs] at h; simp at h
      | ok st' =>
        rw [hs] at h
        dsimp only at h
        obtain ⟨ui, hpp, htt⟩ := stepEntry_pids_trace hs
        dsimp only at hpp htt
        rw [h1] at hpp htt
        refine ih st' st₂ ?_ ?_ h
        · rw [hpp, htt, (uiSvcs_pids_trace svcOut ui st.svcTrace).1]
        · rw [htt]
          exact (uiSvcs_pids_trace svcOut ui st.svcTrace).2 h2

theorem mem_str_map_eb (s : String) (fr : List PyTarget) :
    (PyTarget.str s ∈ fr.map eraseBackup) ↔ PyTarget.str s ∈ fr := by
  induction fr with
  | nil => simp
  | cons u rest ih =>
    cases u with
    | pair p b => simp [eraseBackup, ih]
    | str s' => simp [eraseBackup, ih]

theorem enqOne_map_eb (vis : List String) (fr : List PyTarget) (nt : String) :
    enqOne vis (fr.map eraseBackup) nt = (enqOne vis fr nt).map eraseBackup := by
  unfold enqOne
  by_cases h1 : nt ∈ vis
  · simp [h1]
  · simp only [if_neg h1]
    by_cases h2 : PyTarget.str nt ∈ fr
    · simp [h2, (mem_str_map_eb nt fr).2 h2]
    · have h2' : PyTarget.str nt ∉ fr.map eraseBackup := fun hc => h2 ((mem_str_map_eb nt fr).1 hc)
      simp [h2, h2', eraseBackup]

theorem enqNew_map_eb (vis : List String) (pre : String) :
    ∀ (vs : List String) (fr : List PyTarget),
      enqNew vis (fr.map eraseBackup) pre vs = (enqNew vis fr pre vs).map eraseBackup := by
  intro vs
  induction vs with
  | nil => intro fr; rfl
  | cons v rest ih =>
    intro fr
    simp only [enqNew, enqOne_map_eb]
    exact ih _

theorem discStage_map_eb (vis : List String) (fr : List PyTarget) (ui : UsageInfo) :
    discStage vis (fr.map eraseBackup) ui = (discStage vis fr ui).map (List.map eraseBackup) := by
  cases ui with
  | other s => rfl
  | list es =>
    simp only [discStage]
    cases newPorts es with
    | error e => rfl
    | ok ps =>
      cases newSockets es with
      | error e => rfl
      | ok ss => simp [enqNew_map_eb, Except.map]

theorem stepEntry_mapEB (svcOut : String → Except PyErr String)
    (probe : Nat → ProbeAddr → UsageInfo) (st : RState) (t : PyTarget) :
    stepEntry svcOut probe (mapEB st) t = (stepEntry svcOut probe st t).map mapEB := by
  obtain ⟨fr, v, d, pp, tr, pc⟩ := st
  simp only [mapEB, stepEntry]
  cases hu : unpackTarget t with
  | error e => rfl
  | ok pf =>
    dsimp only
    cases hps : probeStage probe pc pf.1 with
    | error e => rfl
    | ok kui =>
      dsimp only
      rw [discStage_map_eb]
      cases hds : discStage (setAdd (if truthyStr pf.1 && truthyOpt pf.2 then setAdd v pf.1 else v) pf.1) fr kui.2 with
      | error e => rfl
      | ok fr' => rfl

theorem stepEntry_drop_backup (svcOut : String → Except PyErr String)
    (probe : Nat → ProbeAddr → UsageInfo) (st : RState) (p : String) (b : Option String) :
    stepEntry svcOut probe st (.pair p b) = stepEntry svcOut probe st (.pair p none) := by
  simp only [stepEntry, unpackTarget]
  cases htb : truthyStr p && truthyOpt b with
  | false => simp [truthyOpt]
  | true => simp [truthyOpt, setAdd_setAdd_self]

theorem stepEntry_eraseBackup (svcOut : String → Except PyErr String)
    (probe : Nat → ProbeAddr → UsageInfo) (st : RState) (t : PyTarget) :
    stepEntry svcOut probe st (eraseBackup t) = stepEntry svcOut probe st t := by
  cases t with
  | pair p b => exact (stepEntry_drop_backup svcOut probe st p b).symm
  | str s => rfl

theorem resolveLoop_mapEB (svcOut : String → Except PyErr String)
    (probe : Nat → ProbeAddr → UsageInfo) :
    ∀ (fuel : Nat) (st : RState),
      resolveLoop svcOut probe fuel (mapEB st) = resolveLoop svcOut probe fuel st := by
  intro fuel
  induction fuel with
  | zero => intro st; rfl
  | succ f ih =>
    intro st
    obtain ⟨fr, v, d, pp, tr, pc⟩ := st
    cases fr with
    | nil => rfl
    | cons t rest =>
      rw [resolveLoop, resolveLoop]
      dsimp only [mapEB, List.map]
      have hstep : stepEntry svcOut probe ⟨rest.map eraseBackup, v, d, pp, tr, pc⟩ (eraseBackup t)
          = (stepEntry svcOut probe ⟨rest, v, d, pp, tr, pc⟩ t).map mapEB := by
        rw [show (⟨rest.map eraseBackup, v, d, pp, tr, pc⟩ : RState)
            = mapEB ⟨rest, v, d, pp, tr, pc⟩ from rfl]
        rw [stepEntry_mapEB, stepEntry_eraseBackup]
      rw [hstep]
      cases stepEntry svcOut probe ⟨rest, v, d, pp, tr, pc⟩ t with
      | error e => rfl
      | ok st' => exact ih st'

theorem pCount_map_eb (ts : List PyTarget) : pCount (ts.map eraseBackup) = pCount ts := by
  induction ts with
  | nil => rfl
  | cons t rest ih =>
    cases t with
    | pair p b => simpa [pCount, eraseBackup, processable, List.filter] using ih
    | str s =>
      simp only [List.map, eraseBackup]
      simp only [pCount, List.filter] at ih ⊢
      cases processable (PyTarget.str s) with
      | true => simpa using ih
      | false => simpa using ih

theorem mem_enqOne (vis : List String) (fr : List PyTarget) (nt : String)
    (u : PyTarget) (h : u ∈ enqOne vis fr nt) : u ∈ fr ∨ u = .str nt := by
  unfold enqOne at h
  split at h
  · exact Or.inl h
  · split at h
    · exact Or.inl h
    · rcases List.mem_append.1 h with h' | h'
      · exact Or.inl h'
      · exact Or.inr (List.mem_singleton.1 h')

theorem mem_enqNew (vis : List String) (pre : String) :
    ∀ (vs : List String) (fr : List PyTarget) (u : PyTarget),
      u ∈ enqNew vis fr pre vs → u ∈ fr ∨ ∃ v, u = .str (pre ++ v) := by
  intro vs
  induction vs with
  | nil => exact fun fr u h => Or.inl h
  | cons v rest ih =>
    intro fr u h
    rcases ih _ u h with h' | h'
    · rcases mem_enqOne vis fr (pre ++ v) u h' with h'' | h''
      · exact Or.inl h''
      · exact Or.inr ⟨v, h''⟩
    · exact Or.inr h'

theorem mem_discStage (vis : List String) (fr fr' : List PyTarget) (ui : UsageInfo)
    (h : discStage vis fr ui = .ok fr') (u : PyTarget) (hu : u ∈ fr') :
    u ∈ fr ∨ ∃ s, u = .str s ∧ 2 < pyLen s := by
  cases ui with
  | other s =>
    simp only [discStage, Except.ok.injEq] at h
    exact Or.inl (h ▸ hu)
  | list es =>
    simp only [discStage] at h
    cases hps : newPorts es with
    | error e => rw [hps] at h; exact absurd h (by simp)
    | ok ps =>
      rw [hps] at h
      cases hss : newSockets es with
      | error e => rw [hss] at h; exact absurd h (by simp)
      | ok ss =>
        rw [hss] at h
        simp only [Except.ok.injEq] at h
        subst h
        rcases mem_enqNew vis "unix:" ss _ u hu with h1 | h1
        · rcases mem_enqNew vis "127.0.0.1:" ps _ u h1 with h2 | h2
          · exact Or.inl h2
          · obtain ⟨v, hv⟩ := h2
            refine Or.inr ⟨"127.0.0.1:" ++ v, hv, ?_⟩
            show 2 < (("127.0.0.1:" ++ v).data).length
            rw [data_append, List.length_append,
              show ("127.0.0.1:" : String).data.length = 10 from rfl]
            omega
        · obtain ⟨v, hv⟩ := h1
          refine Or.inr ⟨"unix:" ++ v, hv, ?_⟩
          show 2 < (("unix:" ++ v).data).length
          rw [data_append, List.length_append,
            show ("unix:" : String).data.length = 5 from rfl]
          omega

theorem stepEntry_frontier_shape {svcOut : String → Except PyErr String}
    {probe : Nat → ProbeAddr → UsageInfo} {st : RState} {t : PyTarget} {st' : RState}
    (h : stepEntry svcOut probe st t = .ok st') :
    ∀ u ∈ st'.frontier, u ∈ st.frontier ∨ ∃ s, u = .str s ∧ 2 < pyLen s := by
  unfold stepEntry at h
  split at h
  · exact absurd h (by simp)
  · dsimp only at h
    split at h
    · exact absurd h (by simp)
    · split at h
      · exact absurd h (by simp)
      · rename_i hds
        injection h with h
        subst h
        exact fun u hu => mem_discStage _ _ _ _ hds u hu

theorem resolveLoop_str_head_error (svcOut : String → Except PyErr String)
    (probe : Nat → ProbeAddr → UsageInfo) (fuel : Nat) (st : RState)
    (s : String) (rest : List PyTarget)
    (h : st.frontier = .str s :: rest) (hlen : pyLen s ≠ 2) :
    resolveLoop svcOut probe (fuel + 1) st = some (.error .valueError) := by
  rw [resolveLoop, h]
  dsimp only
  have hlen' : ¬ (s.data.length = 2) := hlen
  have hstep : stepEntry svcOut probe { st with frontier := rest } (.str s)
      = .error .valueError := by
    have : unpackTarget (.str s) = .error .valueError := by
      simp only [unpackTarget]
      rw [if_neg hlen']
    simp only [stepEntry, this]
  rw [hstep]

theorem pCount_append_str (fr : List PyTarget) (s : String)
    (h : processable (.str s) = false) : pCount (fr ++ [.str s]) = pCount fr := by
  simp [pCount, List.filter_append, h]

theorem pCount_enqOne (vis : List String) (fr : List PyTarget) (nt : String)
    (h : nt.data.length ≠ 2) : pCount (enqOne vis fr nt) = pCount fr := by
  unfold enqOne
  split
  · rfl
  · split
    · rfl
    · exact pCount_append_str fr nt (by simp [processable]; exact h)

theorem pCount_enqNew (vis : List String) (pre : String) (hpre : 3 ≤ pre.data.length) :
    ∀ (vs : List String) (fr : List PyTarget), pCount (enqNew vis fr pre vs) = pCount fr := by
  intro vs
  induction vs with
  | nil => exact fun fr => rfl
  | cons v rest ih =>
    intro fr
    rw [enqNew, ih, pCount_enqOne]
    rw [data_append, List.length_append]
    omega

theorem pCount_discStage (vis : List String) (fr fr' : List PyTarget) (ui : UsageInfo)
    (h : discStage vis fr ui = .ok fr') : pCount fr' = pCount fr := by
  cases ui with
  | other s =>
    simp only [discStage, Except.ok.injEq] at h
    rw [← h]
  | list es =>
    simp only [discStage] at h
    cases hps : newPorts es with
    | error e => rw [hps] at h; exact absurd h (by simp)
    | ok ps =>
      rw [hps] at h
      cases hss : newSockets es with
      | error e => rw [hss] at h; exact absurd h (by simp)
      | ok ss =>
        rw [hss] at h
        simp only [Except.ok.injEq] at h
        rw [← h, pCount_enqNew vis "unix:" (by decide),
          pCount_enqNew vis "127.0.0.1:" (by decide)]

theorem unpackTarget_processable {t : PyTarget} {pf : String × Option String}
    (h : unpackTarget t = .ok pf) : processable t = true := by
  cases t with
  | pair p b => rfl
  | str s =>
    by_cases hl : s.data.length = 2
    · simp [processable, hl]
    · simp only [unpackTarget, if_neg hl] at h
      exact absurd h (by simp)

theorem stepEntry_pCount {svcOut : String → Except PyErr String}
    {probe : Nat → ProbeAddr → UsageInfo} {st : RState} {t : PyTarget} {st' : RState}
    (h : stepEntry svcOut probe st t = .ok st') :
    pCount st'.frontier = pCount st.frontier ∧ processable t = true := by
  unfold stepEntry at h
  split at h
  · exact absurd h (by simp)
  · rename_i pf hu
    dsimp only at h
    split at h
    · exact absurd h (by simp)
    · split at h
      · exact absurd h (by simp)
      · rename_i hds
        injection h with h
        subst h
        exact ⟨pCount_discStage _ _ _ _ hds, unpackTarget_processable hu⟩

theorem resolveLoop_halts (svcOut : String → Except PyErr String)
    (probe : Nat → ProbeAddr → UsageInfo) :
    ∀ (fuel : Nat) (st : RState), pCount st.frontier < fuel →
      resolveLoop svcOut probe fuel st ≠ none := by
  intro fuel
  induction fuel with
  | zero => intro st h; omega
  | succ f ih =>
    intro st h
    cases hfr : st.frontier with
    | nil => rw [resolveLoop, hfr]; simp
    | cons t rest =>
      rw [resolveLoop, hfr]
      dsimp only
      cases hs : stepEntry svcOut probe { st with frontier := rest } t with
      | error e => simp
      | ok st' =>
        dsimp only
        refine ih st' ?_
        obtain ⟨hc, hpt⟩ := stepEntry_pCount hs
        dsimp only at hc
        rw [hfr] at h
        have hcons : pCount (t :: rest) = pCount rest + 1 := by
          simp [pCount, List.filter, hpt]
        rw [hc]
        omega

/-- The step bound used by `resolve_targets` always suffices: the loop
halts, normally or with an exception, within `pCount ts + 1` pops. -/
theorem resolve_targets_halts (svcOut : String → Except PyErr String)
    (probe : Nat → ProbeAddr → UsageInfo) (ts : List PyTarget) :
    resolve_targets svcOut probe ts ≠ none :=
  resolveLoop_halts svcOut probe (pCount ts + 1) (initState ts) (Nat.lt_succ_self _)

theorem proxypassScan_no_match : ∀ parts : List String,
    (∀ part ∈ parts, strHasCh '|' part = false ∧ pyStartsWith "\"http" part = false
      ∧ pyStartsWith "\"unix:" part = false) →
    proxypassScan parts = (none, none) := by
  intro parts
  induction parts with
  | nil => intro _; rfl
  | cons part rest ih =>
    intro h
    obtain ⟨h1, h2, h3⟩ := h part (List.mem_cons_self part rest)
    simp only [proxypassScan, h1, h2, h3, Bool.false_eq_true, if_false]
    exact ih fun q hq => h q (List.mem_cons_of_mem part hq)

/-!
Claim theorems.
-/

/-- Claim C1 (code bug in the source): the specification asserts that the
engine terminates on every finite input, including cyclic discovery
chains, with `visited` equal to the popped addresses.  On the cyclic
configuration in which the probe of `127.0.0.1:8080` reports a process
bound to `127.0.0.1:8081` and conversely, the embedded engine instead
raises `ValueError`: the discovered address is enqueued as the plain
string `127.0.0.1:8081`, and popping it fails at the tuple unpacking
`primary, failover = target`.  This theorem evaluates the engine at that
failing input. -/
theorem C1_cyclic_discovery_raises :
    resolve_targets svcOkEmpty probeCycle [.pair "http://127.0.0.1:8080" none]
      = some (.error .valueError) := by decide

/-- Claim C2 (code bug in the source): the specification asserts that a
probe result for `127.0.0.1:8080` naming the bound address
`127.0.0.1:8081` makes `Results` contain an entry for `127.0.0.1:8081`.
The embedded engine instead raises `ValueError` when it pops the
discovered bare string, so the run produces no result map at all and the
chain is never followed. -/
theorem C2_chain_discovery_raises :
    resolve_targets svcOkEmpty probeChain [.pair "http://127.0.0.1:8080" none]
      = some (.error .valueError) := by decide

/-- Claim C3: the backup of a failover pair is never probed, never added
to the visited set, never stored as a result key and never enqueued.
Formally, a full run of `resolve_targets` is unchanged when every pair's
backup component is erased before the run, for every service and probe
oracle and every input frontier: the backup influences nothing (the
source reads it only for the side-channel warning and the double visited
insertion of the primary, which is idempotent). -/
theorem C3_backup_never_influences_run (svcOut : String → Except PyErr String)
    (probe : Nat → ProbeAddr → UsageInfo) (ts : List PyTarget) :
    resolve_targets svcOut probe (ts.map eraseBackup) = resolve_targets svcOut probe ts := by
  unfold resolve_targets
  rw [pCount_map_eb]
  rw [show initState (ts.map eraseBackup) = mapEB (initState ts) from rfl]
  exact resolveLoop_mapEB svcOut probe _ _

/-- Claim C4: every frontier entry the engine adds during discovery is a
bare string of length greater than 2 (it carries a `127.0.0.1:` or
`unix:` prefix), and popping any bare string whose length is not exactly
2 makes the loop stop with `ValueError` at the unpacking step instead of
processing it. -/
theorem C4_unpack_discipline :
    (∀ (svcOut : String → Except PyErr String) (probe : Nat → ProbeAddr → UsageInfo)
        (st st' : RState) (t : PyTarget), stepEntry svcOut probe st t = .ok st' →
        ∀ u ∈ st'.frontier, u ∈ st.frontier ∨ ∃ s, u = .str s ∧ 2 < pyLen s) ∧
    (∀ (svcOut : String → Except PyErr String) (probe : Nat → ProbeAddr → UsageInfo)
        (fuel : Nat) (st : RState) (s : String) (rest : List PyTarget),
        st.frontier = .str s :: rest → pyLen s ≠ 2 →
        resolveLoop svcOut probe (fuel + 1) st = some (.error .valueError)) :=
  ⟨fun _ _ _ _ _ h => stepEntry_frontier_shape h,
   fun svcOut probe fuel st s rest h hl =>
     resolveLoop_str_head_error svcOut probe fuel st s rest h hl⟩

/-- Witness for C4: popping the discovered string `127.0.0.1:8081`
(length 14) raises `ValueError`. -/
theorem C4_unpack_discipline_witness :
    resolveLoop svcW4 probeW4 1 ⟨[.str "127.0.0.1:8081"], [], [], [], [], 0⟩
      = some (.error .valueError) :=
  C4_unpack_discipline.2 svcW4 probeW4 0 _ "127.0.0.1:8081" [] rfl (by decide)

/-- Claim C5: two distinct frontier entries with the same canonical
primary address (here the same `unix:` primary with distinct backups)
are both processed without any exception, and the later write overwrites
the earlier one: the final result map holds exactly one record for the
address and its `usage_info` is the result of the later probe call
(index 1). -/
theorem C5_same_primary_last_write_wins (svcOut : String → Except PyErr String)
    (probe : Nat → ProbeAddr → UsageInfo) (p : String) (b1 b2 : Option String)
    (hp : pyStartsWith "unix:" p = true) (hb : b1 ≠ b2)
    (hh : ∀ k a, harmless (probe k a) = true) :
    ∃ st svcs, resolve_targets svcOut probe [.pair p b1, .pair p b2] = some (.ok st) ∧
      st.details = [(p, ⟨probe 1 (.unixSock (pyDrop 5 p)), svcs⟩)] := by
  refine ⟨_, (uiSvcs svcOut (probe 1 (.unixSock (pyDrop 5 p)))
      (uiSvcs svcOut (probe 0 (.unixSock (pyDrop 5 p))) [] []).2.1
      (uiSvcs svcOut (probe 0 (.unixSock (pyDrop 5 p))) [] []).2.2).1,
    run_two_unix svcOut probe p p b1 b2 hp hp (hh 0 _) (hh 1 _), ?_⟩
  simp [dictSet]

/-- Witness for C5: the two distinct pairs over `unix:/run/app.sock` are
resolved without exception and the stored record is the second probe's
snapshot. -/
theorem C5_same_primary_last_write_wins_witness :
    ∃ st svcs, resolve_targets svcW5 probeW5
        [.pair "unix:/run/app.sock" none, .pair "unix:/run/app.sock" (some "unix:/backup.sock")]
        = some (.ok st) ∧
      st.details = [("unix:/run/app.sock",
        ⟨probeW5 1 (.unixSock (pyDrop 5 "unix:/run/app.sock")), svcs⟩)] :=
  C5_same_primary_last_write_wins svcW5 probeW5 "unix:/run/app.sock" none
    (some "unix:/backup.sock") (by decide) (by decide) (fun k a => rfl)

/-- Claim C6: in any completed run, the instrumentation trace of pids for
which `get_systemctl_service` was invoked has no duplicates (each
distinct pid triggers at most one lookup), and the pid cache equals that
trace exactly: a pid is cached precisely when it was looked up, whether
or not the lookup produced a parseable service. -/
theorem C6_service_lookup_memoized (svcOut : String → Except PyErr String)
    (probe : Nat → ProbeAddr → UsageInfo) (ts : List PyTarget) (st : RState)
    (h : resolve_targets svcOut probe ts = some (.ok st)) :
    st.svcTrace.Nodup ∧ st.processed_pids = st.svcTrace := by
  have hmain := resolveLoop_pids_trace svcOut probe (pCount ts + 1) (initState ts) st rfl
    List.nodup_nil h
  exact ⟨hmain.2, hmain.1⟩

/-- Witness for C6: a probe reporting the pid `42` twice triggers a
single service lookup, and the pid cache equals the lookup trace. -/
theorem C6_service_lookup_memoized_witness :
    stW6.svcTrace.Nodup ∧ stW6.processed_pids = stW6.svcTrace :=
  C6_service_lookup_memoized svcW6 probeW6 [.pair "unix:s" none] stW6 (by decide)

/-- Claim C7: a probe error for one target (a non-list `usage_info`, the
shape `check_port_usage` returns on an exception) does not raise or halt
the run: the error value is recorded in that target's record with no
service names, that target contributes no discoveries (only the two
input targets are ever visited and the frontier drains), and the sibling
target still receives a complete record holding its own probe result. -/
theorem C7_probe_error_graceful (svcOut : String → Except PyErr String)
    (probe : Nat → ProbeAddr → UsageInfo) (p1 p2 : String) (b1 b2 : Option String)
    (emsg : String)
    (hp1 : pyStartsWith "unix:" p1 = true) (hp2 : pyStartsWith "unix:" p2 = true)
    (hne : p1 ≠ p2)
    (h0 : probe 0 (.unixSock (pyDrop 5 p1)) = .other emsg)
    (hh1 : harmless (probe 1 (.unixSock (pyDrop 5 p2))) = true) :
    ∃ st, resolve_targets svcOut probe [.pair p1 b1, .pair p2 b2] = some (.ok st) ∧
      st.frontier = [] ∧ st.visited = [p1, p2] ∧
      dictGet st.details p1 = some ⟨.other emsg, []⟩ ∧
      ∃ r2, dictGet st.details p2 = some r2 ∧
        r2.usage_info = probe 1 (.unixSock (pyDrop 5 p2)) := by
  have hh0 : harmless (probe 0 (.unixSock (pyDrop 5 p1))) = true := by rw [h0]; rfl
  refine ⟨_, run_two_unix svcOut probe p1 p2 b1 b2 hp1 hp2 hh0 hh1, rfl, ?_, ?_, ?_⟩
  · simp [setAdd, Ne.symm hne]
  · simp [h0, dictSet, dictGet, hne, uiSvcs]
  · refine ⟨⟨probe 1 (.unixSock (pyDrop 5 p2)),
      (uiSvcs svcOut (probe 1 (.unixSock (pyDrop 5 p2)))
        (uiSvcs svcOut (probe 0 (.unixSock (pyDrop 5 p1))) [] []).2.1
        (uiSvcs svcOut (probe 0 (.unixSock (pyDrop 5 p1))) [] []).2.2).1⟩, ?_, rfl⟩
    simp [dictSet, dictGet, hne]

/-- Witness for C7: the first target's probe fails with the TCP error
string, yet the run completes and the sibling target's record is
present. -/
theorem C7_probe_error_graceful_witness :
    ∃ st, resolve_targets svcW7 probeW7 [.pair "unix:/a" none, .pair "unix:/b" none]
        = some (.ok st) ∧
      st.frontier = [] ∧ st.visited = ["unix:/a", "unix:/b"] ∧
      dictGet st.details "unix:/a" = some ⟨.other "Error checking port 80 on h: OSError", []⟩ ∧
      ∃ r2, dictGet st.details "unix:/b" = some r2 ∧
        r2.usage_info = probeW7 1 (.unixSock (pyDrop 5 "unix:/b")) :=
  C7_probe_error_graceful svcW7 probeW7 "unix:/a" "unix:/b" none none
    "Error checking port 80 on h: OSError" (by decide) (by decide) (by decide) rfl (by decide)

/-- Counterexample to claim C8 as stated: the directive value
`http://127.0.0.1:8080` begins with the http scheme and contains no `|`
separator, yet `proxypass_target` yields no target for it, because the
source only recognizes values that begin with a double-quote character
(`"http`, `"unix:`). -/
theorem C8_unquoted_http_counterexample :
    pyStartsWith "http" "http://127.0.0.1:8080" = true ∧
    strHasCh '|' "http://127.0.0.1:8080" = false ∧
    proxypass_target "ProxyPass / http://127.0.0.1:8080" = (none, none) := by decide

/-- Claim C8 as amended: the classifier is a total deterministic function
of the line; a part containing `|` is split at `|` into a quote-stripped
(primary, backup) pair; otherwise a part beginning with a double-quote
followed by `http` or by `unix:` becomes the quote-stripped primary with
no backup; a line none of whose parts match yields no target rather than
an error. -/
theorem C8_classifier_amended :
    (∀ line, (∀ part ∈ pySplitWs line, strHasCh '|' part = false
        ∧ pyStartsWith "\"http" part = false ∧ pyStartsWith "\"unix:" part = false) →
      proxypass_target line = (none, none)) ∧
    (∀ part rest, strHasCh '|' part = true →
      proxypassScan (part :: rest) =
        (some (pyStripQuotes ((pySplitCh '|' part).getD 0 "")),
         some (pyStripQuotes ((pySplitCh '|' part).getD 1 "")))) ∧
    (∀ part rest, strHasCh '|' part = false →
      (pyStartsWith "\"http" part = true ∨ pyStartsWith "\"unix:" part = true) →
      proxypassScan (part :: rest) = (some (pyStripQuotes part), none)) := by
  refine ⟨fun line h => proxypassScan_no_match _ h, ?_, ?_⟩
  · intro part rest h
    simp [proxypassScan, h]
  · intro part rest h1 h2
    by_cases hh : pyStartsWith "\"http" part = true
    · simp [proxypassScan, h1, hh]
    · rcases h2 with h2 | h2
      · exact absurd h2 hh
      · simp [proxypassScan, h1, hh, h2]

/-- Witness for the amended C8: a quoted failover value is split at `|`
with the quotes stripped from both sides. -/
theorem C8_classifier_amended_witness :
    proxypassScan ["\"http://a|http://b\""] = (some "http://a", some "http://b") := by
  have h := C8_classifier_amended.2.1 "\"http://a|http://b\"" [] (by decide)
  rw [h]
  decide

/-- Claim C9: for every outcome of the service-manager query,
`get_systemctl_service` returns a string and never raises: when the query
itself failed it returns the error marker for that exception; when the
stripped output's first line has at least two space-separated pieces the
second piece (the unit name) is returned; and when the first line is too
short — the shape failure that raises `IndexError` inside the parser —
the `IndexError` marker is returned instead of the exception
propagating. -/
theorem C9_service_identifier_never_raises (out : Except PyErr String) :
    (∀ e, out = .error e → get_systemctl_service out = svcErrorMsg e) ∧
    (∀ s, out = .ok s →
      (2 ≤ (pySplitCh ' ' ((pySplitCh '\n' (pyStrip s)).getD 0 "")).length →
        get_systemctl_service out
          = (pySplitCh ' ' ((pySplitCh '\n' (pyStrip s)).getD 0 "")).getD 1 "") ∧
      ((pySplitCh ' ' ((pySplitCh '\n' (pyStrip s)).getD 0 "")).length < 2 →
        get_systemctl_service out = svcErrorMsg .indexError)) := by
  constructor
  · intro e he; subst he; rfl
  · intro s hs; subst hs
    constructor
    · intro h2
      simp only [get_systemctl_service, parse_systemctl_service_status, if_pos h2]
    · intro h2
      have h2' : ¬ (2 ≤ (pySplitCh ' ' ((pySplitCh '\n' (pyStrip s)).getD 0 "")).length) := by
        omega
      simp only [get_systemctl_service, parse_systemctl_service_status, if_neg h2']

/-- Witness for C9: empty command output lacks the expected line shape
and resolves to the `IndexError` marker rather than an exception. -/
theorem C9_service_identifier_never_raises_witness :
    get_systemctl_service (.ok "") = svcErrorMsg .indexError :=
  ((C9_service_identifier_never_raises (.ok "")).2 "" rfl).2 (by decide)

/-- Counterexample to claim C10 as stated: the value returned on a probe
exception (the empty list) is not the value a successful probe returns
when it finds no processes — empty stdout yields the one-element list
containing the empty string, because Python splits the empty string into
`[""]` — so the two outcomes are distinguishable in the result record. -/
theorem C10_error_equals_empty_counterexample :
    check_unix_socket_usage "/run/app.sock" (.error .osError) = .list [] ∧
    check_unix_socket_usage "/run/app.sock" (.ok "") = .list [.pstr ""] ∧
    check_unix_socket_usage "/run/app.sock" (.error .osError)
      ≠ check_unix_socket_usage "/run/app.sock" (.ok "") := by decide

/-- Claim C10 as amended: when the UNIX-socket probe fails with an
exception, `check_unix_socket_usage` returns the empty list, which
differs from a successful empty probe (that returns a list holding one
empty string); in all cases the UNIX-socket probe returns a list, so no
error-marker string is ever recorded for a unix-socket target — unlike
the TCP probe, which turns an exception into an error string. -/
theorem C10_unix_probe_error_amended (path : String) (out : Except PyErr String)
    (host port : String) (e0 : PyErr) :
    (∃ l, check_unix_socket_usage path out = .list l) ∧
    (out = .error e0 → check_unix_socket_usage path out = .list []) ∧
    check_unix_socket_usage path (.ok "") = .list [.pstr ""] ∧
    (∃ s, check_port_usage host port (.error e0) = .other s) := by
  refine ⟨?_, ?_, rfl, ⟨_, rfl⟩⟩
  · cases out with
    | ok stdout => exact ⟨_, rfl⟩
    | error e => exact ⟨[], rfl⟩
  · intro h; subst h; rfl

/-- Witness for the amended C10: an `OSError` during the probe yields the
empty list. -/
theorem C10_unix_probe_error_amended_witness :
    check_unix_socket_usage "/run/app.sock" (.error .osError) = .list [] :=
  (C10_unix_probe_error_amended "/run/app.sock" (.error .osError) "h" "80" .osError).2.1 rfl

end ProxyResolve
